import Mathlib

/-!
Shallow embedding of `deepeval/scorer/scorer.py` (class `Scorer`).

Each scoring method wraps an external backend (an NLP library call or a
loaded model).  The backends live outside this file's source, so they are
modelled as explicit function parameters; the wrapper logic (argument
validation, string-to-list promotion, aggregation, result selection) is
translated directly from the Python source.  Python exceptions are
modelled with `Except ScorerError`.  Python `float` is modelled as `ℚ`.
-/

/-- The error outcomes the scorer wrappers can raise.
`invalidArgument` models a failed `assert` on a discrete-choice argument,
`notSupported` models `raise NotImplementedError()`,
`keyError` models a Python dict lookup miss,
`indexError` models `scores[0]` on an empty list. -/
inductive ScorerError where
  | invalidArgument
  | notSupported
  | keyError
  | indexError
deriving DecidableEq, Repr

/-- Python whitespace characters recognised by `str.strip()` (ASCII part). -/
def isPyWhitespace (c : Char) : Bool :=
  c = ' ' || c = '\t' || c = '\n' || c = '\x0d' || c = '\x0b' || c = '\x0c'

/-- Python `s.strip()`: remove leading and trailing whitespace. -/
def pyStrip (s : String) : String :=
  String.mk (((s.data.dropWhile isPyWhitespace).reverse.dropWhile isPyWhitespace).reverse)

/-- `Scorer.exact_match_score` (scorer.py lines 84-97):
`if not prediction: return 0` then
`return 1 if prediction.strip() == target.strip() else 0`.
A Python `str` is falsy exactly when it is empty. -/
def exact_match_score (target prediction : String) : ℤ :=
  if prediction = "" then 0
  else if pyStrip prediction = pyStrip target then 1 else 0

/-- `Scorer.rouge_score` (scorer.py lines 17-41): asserts the variant is one
of `rouge1`, `rouge2`, `rougeL`, then builds a `RougeScorer` for that variant
and returns the variant's f-measure.  The external `rouge_scorer` library is
modelled as a function from the chosen variant, target and prediction to a
result. -/
def rouge_score {α : Type} (rouge_backend : String → String → String → α)
    (target prediction score_type : String) : Except ScorerError α :=
  if score_type = "rouge1" || score_type = "rouge2" || score_type = "rougeL" then
    Except.ok (rouge_backend score_type target prediction)
  else
    Except.error ScorerError.invalidArgument

/-- The `bleu_weight_map` dict literal of `Scorer.sentence_bleu_score`
(scorer.py lines 72-77). -/
def bleu_weight_map (bleu_type : String) : Option (ℕ × ℕ × ℕ × ℕ) :=
  if bleu_type = "bleu1" then some (1, 0, 0, 0)
  else if bleu_type = "bleu2" then some (0, 1, 0, 0)
  else if bleu_type = "bleu3" then some (0, 0, 1, 0)
  else if bleu_type = "bleu4" then some (0, 0, 0, 1)
  else none

/-- `Scorer.sentence_bleu_score` (scorer.py lines 43-82): asserts the
bleu type is one of `bleu1`..`bleu4`, promotes a lone string reference to a
one-element list, tokenizes every reference and the prediction with
`word_tokenize`, and calls nltk's `sentence_bleu` with the weight tuple
taken from `bleu_weight_map`.  The tokenizer and the nltk scorer are
modelled as function parameters. -/
def sentence_bleu_score {α : Type}
    (word_tokenize : String → List String)
    (sentence_bleu : List (List String) → List String → (ℕ × ℕ × ℕ × ℕ) → α)
    (references : String ⊕ List String) (prediction : String)
    (bleu_type : String) : Except ScorerError α :=
  if bleu_type = "bleu1" || bleu_type = "bleu2" || bleu_type = "bleu3"
      || bleu_type = "bleu4" then
    let targets := match references with
      | Sum.inl s => [s]
      | Sum.inr l => l
    let tokenized_targets := targets.map word_tokenize
    let tokenized_prediction := word_tokenize prediction
    match bleu_weight_map bleu_type with
    | some w => Except.ok (sentence_bleu tokenized_targets tokenized_prediction w)
    | none => Except.error ScorerError.keyError
  else
    Except.error ScorerError.invalidArgument

/-- `Scorer.PII_score` (scorer.py lines 236-240): `raise NotImplementedError()`
unconditionally. -/
def PII_score (target prediction : String) (model : Option String) :
    Except ScorerError ℚ :=
  Except.error ScorerError.notSupported

/-- The dot product used by `sentence_transformers.util.dot_score` on a
single query embedding and one document embedding. -/
def dotScore (xs ys : List ℚ) : ℚ :=
  (List.zipWith (fun a b => a * b) xs ys).sum

/-- The branch of `Scorer.answer_relevancy_score` after `model_type` has been
validated and defaulted (scorer.py lines 318-339).  In `cross_encoder` mode
the predictions argument must be a single string (`assert isinstance(predictions, str)`)
and the cross-encoder backend scores the (prediction, target) pair directly.
Otherwise (`self_encoder` mode) a lone string is promoted to a one-element
list, the target and every document are embedded, every document is scored
by dot product against the target embedding, and `scores[0]` is returned. -/
def answer_relevancy_dispatch
    (cross_encoder : String → String → ℚ) (embed : String → List ℚ)
    (predictions : String ⊕ List String) (target : String)
    (model_type : String) : Except ScorerError ℚ :=
  if model_type = "cross_encoder" then
    match predictions with
    | Sum.inl p => Except.ok (cross_encoder p target)
    | Sum.inr _ => Except.error ScorerError.invalidArgument
  else
    let docs := match predictions with
      | Sum.inl s => [s]
      | Sum.inr l => l
    let scores := docs.map (fun d => dotScore (embed target) (embed d))
    match scores with
    | [] => Except.error ScorerError.indexError
    | s :: _ => Except.ok s

/-- `Scorer.answer_relevancy_score` (scorer.py lines 281-339): when
`model_type` is given it must be `self_encoder` or `cross_encoder`
(else the `assert` fails); when omitted it defaults to `cross_encoder`;
then dispatch on the mode.  The two backend models are function
parameters. -/
def answer_relevancy_score
    (cross_encoder : String → String → ℚ) (embed : String → List ℚ)
    (predictions : String ⊕ List String) (target : String)
    (model_type : Option String) : Except ScorerError ℚ :=
  match model_type with
  | some t =>
    if t = "self_encoder" || t = "cross_encoder" then
      answer_relevancy_dispatch cross_encoder embed predictions target t
    else
      Except.error ScorerError.invalidArgument
  | none => answer_relevancy_dispatch cross_encoder embed predictions target "cross_encoder"

/-- `Scorer.factual_consistency_score` (scorer.py lines 341-359): promote a
lone string context to a one-element list, then
`max_score = 0; for context in contexts: max_score = max(max_score, scorer.predict(context, prediction))`.
The `FactualConsistencyModel.predict` backend is a function parameter; the
spec fixes no output range for it ("floats whose range is model-defined"),
so it is an arbitrary rational-valued function. -/
def factual_consistency_score (predict : String → String → ℚ)
    (contexts : String ⊕ List String) (prediction : String) : ℚ :=
  let ctxs := match contexts with
    | Sum.inl s => [s]
    | Sum.inr l => l
  ctxs.foldl (fun max_score context => max max_score (predict context prediction)) 0

-- Helper lemmas ---------------------------------------------------------

/-- Folding `max` of scores from initial value `max a b` pulls `a` out. -/
theorem foldl_max_init (f : String → ℚ) (l : List String) (a b : ℚ) :
    l.foldl (fun m c => max m (f c)) (max a b)
      = max a (l.foldl (fun m c => max m (f c)) b) := by
  induction l generalizing b with
  | nil => rfl
  | cons c cs ih =>
    simp only [List.foldl_cons]
    rw [max_assoc, ih]

/-- The initial accumulator bounds the `max`-fold from below. -/
theorem le_foldl_max (f : String → ℚ) (l : List String) (a : ℚ) :
    a ≤ l.foldl (fun m c => max m (f c)) a := by
  induction l generalizing a with
  | nil => exact le_refl a
  | cons c cs ih =>
    simp only [List.foldl_cons]
    exact le_trans (le_max_left a (f c)) (ih (max a (f c)))

/-- On a non-empty context list the factual-consistency result is the maximum
of `0` and the per-context backend scores. -/
theorem factual_consistency_score_cons (predict : String → String → ℚ)
    (p c : String) (cs : List String) :
    factual_consistency_score predict (Sum.inr (c :: cs)) p
      = max 0 (List.foldl max (predict c p) (cs.map (fun x => predict x p))) := by
  simp only [factual_consistency_score, List.foldl_cons, List.foldl_map]
  exact foldl_max_init (fun x => predict x p) cs 0 (predict c p)

-- Claim theorems --------------------------------------------------------

/-- C1 (counterexample): the claim that on a non-empty context list the
returned value is the maximum backend score fails when every backend score
is negative: with a backend scoring every context `-1`, the single context
`""` has maximum backend score `-1`, yet the function returns `0`. -/
theorem factual_consistency_negative_backend_counterexample :
    factual_consistency_score (fun _ _ => (-1 : ℚ)) (Sum.inr [""]) "" = 0 ∧
    (fun _ _ => (-1 : ℚ)) "" "" = (-1 : ℚ) ∧ (0 : ℚ) ≠ -1 := by
  refine ⟨?_, rfl, by norm_num⟩
  simp [factual_consistency_score]

/-- C1 (amended): `factual_consistency_score [c1, c2] p` equals the maximum
of the two single-context calls; and on any non-empty context list the
returned value is the maximum of `0` and the per-context backend scores
(hence the maximum backend score whenever some score is nonnegative). -/
theorem factual_consistency_max_aggregation :
    (∀ (predict : String → String → ℚ) (c1 c2 p : String),
      factual_consistency_score predict (Sum.inr [c1, c2]) p
        = max (factual_consistency_score predict (Sum.inl c1) p)
            (factual_consistency_score predict (Sum.inl c2) p)) ∧
    (∀ (predict : String → String → ℚ) (c p : String) (cs : List String),
      factual_consistency_score predict (Sum.inr (c :: cs)) p
        = max 0 (List.foldl max (predict c p) (cs.map (fun x => predict x p)))) := by
  constructor
  · intro predict c1 c2 p
    simp only [factual_consistency_score, List.foldl_cons, List.foldl_nil]
    rw [← max_assoc, max_eq_left (le_max_left 0 (predict c1 p))]
  · intro predict c p cs
    exact factual_consistency_score_cons predict p c cs

/-- C2: in `self_encoder` mode with at least two predictions, the result is
exactly the dot-product similarity of the target embedding with the FIRST
prediction's embedding; every other prediction's score is discarded. -/
theorem answer_relevancy_self_encoder_first_score
    (cross_encoder : String → String → ℚ) (embed : String → List ℚ)
    (target p1 p2 : String) (rest : List String) :
    answer_relevancy_score cross_encoder embed (Sum.inr (p1 :: p2 :: rest)) target
        (some "self_encoder")
      = Except.ok (dotScore (embed target) (embed p1)) := rfl

/-- C3 (counterexample): with `target = ""` and `prediction = ""` the two
trimmed strings are equal, yet the function returns `0`, not `1` — the
claimed "returns 1 iff trimmed strings are equal" fails at this input. -/
theorem exact_match_empty_empty_counterexample :
    pyStrip "" = pyStrip "" ∧ exact_match_score "" "" ≠ 1 := by decide

/-- C3 (amended): for every NON-empty prediction, `exact_match_score`
returns 1 iff the whitespace-trimmed strings are equal and 0 otherwise;
for the empty (falsy) prediction it returns 0 regardless of target. -/
theorem exact_match_characterization :
    (∀ target prediction : String, prediction ≠ "" →
      (exact_match_score target prediction = 1
          ↔ pyStrip prediction = pyStrip target) ∧
      (exact_match_score target prediction = 0
          ↔ pyStrip prediction ≠ pyStrip target)) ∧
    (∀ target : String, exact_match_score target "" = 0) := by
  constructor
  · intro target prediction hp
    by_cases hs : pyStrip prediction = pyStrip target <;>
      simp [exact_match_score, hp, hs]
  · intro target
    rfl

/-- C3 witness: applying the amended characterization at the concrete input
`target = "a "`, `prediction = "a"`. -/
theorem exact_match_characterization_witness :
    exact_match_score "a " "a" = 1 :=
  (exact_match_characterization.1 "a " "a" (by decide)).1.mpr (by decide)

/-- C4: a lone string reference is promoted to a one-element list, so the
call with `ref` returns exactly the same value as the call with `[ref]`,
for every tokenizer, every backend, and every bleu type. -/
theorem sentence_bleu_string_promotes_to_singleton {α : Type}
    (word_tokenize : String → List String)
    (sentence_bleu : List (List String) → List String → (ℕ × ℕ × ℕ × ℕ) → α)
    (ref prediction bleu_type : String) :
    sentence_bleu_score word_tokenize sentence_bleu (Sum.inl ref) prediction bleu_type
      = sentence_bleu_score word_tokenize sentence_bleu (Sum.inr [ref]) prediction
          bleu_type := rfl

/-- C5: for each valid bleu type the weight tuple handed to the backend is
one-hot at the requested n-gram order (shown with a backend that returns
its weights argument unchanged: the wrapper's result is exactly the weight
tuple the backend received). -/
theorem sentence_bleu_one_hot_weights
    (word_tokenize : String → List String)
    (references : String ⊕ List String) (prediction : String) :
    sentence_bleu_score word_tokenize (fun _ _ w => w) references prediction "bleu1"
        = Except.ok (1, 0, 0, 0) ∧
    sentence_bleu_score word_tokenize (fun _ _ w => w) references prediction "bleu2"
        = Except.ok (0, 1, 0, 0) ∧
    sentence_bleu_score word_tokenize (fun _ _ w => w) references prediction "bleu3"
        = Except.ok (0, 0, 1, 0) ∧
    sentence_bleu_score word_tokenize (fun _ _ w => w) references prediction "bleu4"
        = Except.ok (0, 0, 0, 1) := by
  refine ⟨?_, ?_, ?_, ?_⟩ <;> cases references <;> rfl

/-- C6: an unsupported rouge variant or bleu type is rejected with
`invalidArgument` whatever the backend functions are (so no backend is
consulted and no scoring work happens). -/
theorem invalid_variant_rejected_before_backend :
    (∀ (α : Type) (rouge_backend : String → String → String → α)
        (target prediction score_type : String),
      score_type ≠ "rouge1" → score_type ≠ "rouge2" → score_type ≠ "rougeL" →
      rouge_score rouge_backend target prediction score_type
        = Except.error ScorerError.invalidArgument) ∧
    (∀ (α : Type) (word_tokenize : String → List String)
        (sentence_bleu : List (List String) → List String → (ℕ × ℕ × ℕ × ℕ) → α)
        (references : String ⊕ List String) (prediction bleu_type : String),
      bleu_type ≠ "bleu1" → bleu_type ≠ "bleu2" → bleu_type ≠ "bleu3" →
      bleu_type ≠ "bleu4" →
      sentence_bleu_score word_tokenize sentence_bleu references prediction bleu_type
        = Except.error ScorerError.invalidArgument) := by
  constructor
  · intro α rouge_backend target prediction score_type h1 h2 h3
    simp [rouge_score, h1, h2, h3]
  · intro α word_tokenize sentence_bleu references prediction bleu_type h1 h2 h3 h4
    simp [sentence_bleu_score, h1, h2, h3, h4]

/-- C6 witness: the concrete invalid choices `rouge5` and `bleu5` are both
rejected with `invalidArgument`. -/
theorem invalid_variant_rejected_before_backend_witness :
    rouge_score (fun _ _ _ => (0 : ℚ)) "a" "b" "rouge5"
        = Except.error ScorerError.invalidArgument ∧
    sentence_bleu_score (fun s => [s]) (fun _ _ _ => (0 : ℚ)) (Sum.inl "a") "b" "bleu5"
        = Except.error ScorerError.invalidArgument :=
  ⟨invalid_variant_rejected_before_backend.1 ℚ (fun _ _ _ => 0) "a" "b" "rouge5"
      (by decide) (by decide) (by decide),
    invalid_variant_rejected_before_backend.2 ℚ (fun s => [s]) (fun _ _ _ => 0)
      (Sum.inl "a") "b" "bleu5" (by decide) (by decide) (by decide) (by decide)⟩

/-- C7: in `cross_encoder` mode — whether requested explicitly or reached
through the omitted-`model_type` default — a list of predictions is rejected
with `invalidArgument` for every choice of backends, while a single string
prediction succeeds and is scored against the target. -/
theorem cross_encoder_rejects_prediction_list :
    (∀ (cross_encoder : String → String → ℚ) (embed : String → List ℚ)
        (target : String) (predictions : List String),
      answer_relevancy_score cross_encoder embed (Sum.inr predictions) target none
        = Except.error ScorerError.invalidArgument) ∧
    (∀ (cross_encoder : String → String → ℚ) (embed : String → List ℚ)
        (target : String) (predictions : List String),
      answer_relevancy_score cross_encoder embed (Sum.inr predictions) target
          (some "cross_encoder")
        = Except.error ScorerError.invalidArgument) ∧
    (∀ (cross_encoder : String → String → ℚ) (embed : String → List ℚ)
        (target p : String),
      answer_relevancy_score cross_encoder embed (Sum.inl p) target none
        = Except.ok (cross_encoder p target)) ∧
    (∀ (cross_encoder : String → String → ℚ) (embed : String → List ℚ)
        (target p : String),
      answer_relevancy_score cross_encoder embed (Sum.inl p) target
          (some "cross_encoder")
        = Except.ok (cross_encoder p target)) :=
  ⟨fun _ _ _ _ => rfl, fun _ _ _ _ => rfl, fun _ _ _ _ => rfl, fun _ _ _ _ => rfl⟩

/-- C8: `PII_score` fails with the not-supported error on every input and
never returns a value. -/
theorem PII_score_always_not_supported :
    (∀ (target prediction : String) (model : Option String),
      PII_score target prediction model = Except.error ScorerError.notSupported) ∧
    (∀ (target prediction : String) (model : Option String) (v : ℚ),
      PII_score target prediction model ≠ Except.ok v) :=
  ⟨fun _ _ _ => rfl, fun _ _ _ _ h => Except.noConfusion h⟩

/-- C9: the factual-consistency result is the per-context maximum clamped at
`0`: the empty context list yields `0` for every backend (no context is ever
scored), the result is never negative, a lone string context yields
`max 0 score`, and a non-empty list yields the maximum of `0` and all
per-context scores. -/
theorem factual_consistency_clamped_at_zero :
    (∀ (predict : String → String → ℚ) (p : String),
      factual_consistency_score predict (Sum.inr []) p = 0) ∧
    (∀ (predict : String → String → ℚ) (contexts : String ⊕ List String)
        (p : String),
      0 ≤ factual_consistency_score predict contexts p) ∧
    (∀ (predict : String → String → ℚ) (s p : String),
      factual_consistency_score predict (Sum.inl s) p = max 0 (predict s p)) ∧
    (∀ (predict : String → String → ℚ) (c p : String) (cs : List String),
      factual_consistency_score predict (Sum.inr (c :: cs)) p
        = max 0 (List.foldl max (predict c p) (cs.map (fun x => predict x p)))) := by
  refine ⟨fun _ _ => rfl, ?_, fun predict s p => rfl, ?_⟩
  · intro predict contexts p
    cases contexts with
    | inl s => exact le_foldl_max (fun x => predict x p) [s] 0
    | inr l => exact le_foldl_max (fun x => predict x p) l 0
  · intro predict c p cs
    exact factual_consistency_score_cons predict p c cs

/-- C10: the empty-prediction short-circuit fires only on the exactly-empty
string: a whitespace-only prediction against an empty target scores 1, while
an empty prediction against a whitespace-only target scores 0, so the two
argument positions are not symmetric. -/
theorem exact_match_empty_asymmetry :
    exact_match_score "" "   " = 1 ∧ exact_match_score "   " "" = 0 ∧
    exact_match_score "" "   " ≠ exact_match_score "   " "" := by decide
